import Mathlib

/-!
Shallow embedding of the state-synchronization core of the J-A-C-K repair-shop
application (src/src/App.tsx), together with theorems checking the spec's
claims about it.

The embedding models the React component's state hooks as one record
(`AppState`) and each mutation handler (`updateRO`, `updateInventory`,
`addInventoryAlert`, `addRO`, `fetchInitialData`) as a pure state
transition.  Remote (Supabase) traffic is modelled as an append-only log of
`RemoteCall` values carried in the state; the boolean outcome of a remote
write is passed in as a parameter and recorded in the log, mirroring the
fact that the source awaits the call but ignores its result.  `Date.now()`
is modelled as an explicit `now : Nat` argument.
-/

namespace JACK

/-- Repair-order workflow states, from `ROStatus` as used in App.tsx and
spec section 4.1. -/
inductive ROStatus where
  | NEW
  | AUTHORIZED
  | PARTS_PENDING
  | READY_FOR_TECH
  | ACTIVE
  | COMPLETED
  | PENDING_INVOICE
deriving DecidableEq, Repr

/-- Repair-order record.  `types.ts` is not part of the sources; the fields
are those App.tsx reads (`id`, `status`, `technicianId`) plus the opaque
line-item detail named in spec section 3.  App.tsx treats the record as an
opaque whole everywhere except those three fields. -/
structure RepairOrder where
  id : String
  status : ROStatus
  technicianId : Option String
  lineItems : List String
deriving DecidableEq, Repr

/-- Master inventory record (`Part` in types.ts), fields as read by
App.tsx: `partNumber`, `description`, `quantityOnHand`, `reorderPoint`.
Quantities are JS numbers used as integers; modelled as `Int` since deltas
may be negative and no clamping exists. -/
structure Part where
  partNumber : String
  description : String
  quantityOnHand : Int
  reorderPoint : Int
deriving DecidableEq, Repr

/-- Low-stock alert record, as constructed by `addInventoryAlert`. -/
structure InventoryAlert where
  id : String
  partNumber : String
  message : String
  roId : String
  reason : String
  timestamp : Nat
deriving DecidableEq, Repr

/-- The alert fields supplied by a caller of `addInventoryAlert`
(`Omit<InventoryAlert, 'id' | 'timestamp'>` in the source). -/
structure AlertInput where
  partNumber : String
  message : String
  roId : String
  reason : String
deriving DecidableEq, Repr

/-- Values appearing in a remote row payload. -/
inductive WireVal where
  | str : String → WireVal
  | int : Int → WireVal
  | null : WireVal
  | strList : List String → WireVal
deriving DecidableEq, Repr

/-- One call issued to the remote store.  `ok` records whether the awaited
call succeeded; the source ignores this result, which the theorems below
make precise. -/
inductive RemoteCall where
  | select (table : String)
  | insert (table : String) (row : List (String × WireVal)) (ok : Bool)
  | update (table : String) (row : List (String × WireVal))
      (keyColumn : String) (keyValue : String) (ok : Bool)
deriving DecidableEq, Repr

/-- Wire spelling of a status value. -/
def statusWire : ROStatus → String
  | .NEW => "NEW"
  | .AUTHORIZED => "AUTHORIZED"
  | .PARTS_PENDING => "PARTS_PENDING"
  | .READY_FOR_TECH => "READY_FOR_TECH"
  | .ACTIVE => "ACTIVE"
  | .COMPLETED => "COMPLETED"
  | .PENDING_INVOICE => "PENDING_INVOICE"

/-- Modelled from the spec: `toSnake` lives in `utils.ts`, which is not
among the sources.  Spec sections 4.4 and 6 describe it as the pure,
invertible translation from the in-memory joined-word (camelCase) field
names to the remote separated-word (snake_case) column names, applied to
the full record. -/
def toSnakeRO (ro : RepairOrder) : List (String × WireVal) :=
  [("id", .str ro.id),
   ("status", .str (statusWire ro.status)),
   ("technician_id", match ro.technicianId with
     | some t => .str t
     | none => .null),
   ("line_items", .strList ro.lineItems)]

/-- The component state of App.tsx relevant to the synchronization core:
the three collections, the bootstrap error banner, the mode flag, whether
the Supabase client is configured (non-null), and the log of remote calls
issued so far. -/
structure AppState where
  repairOrders : List RepairOrder
  masterInventory : List Part
  inventoryAlerts : List InventoryAlert
  error : Option String
  isDemoMode : Bool
  supabaseConfigured : Bool
  remoteCalls : List RemoteCall
deriving DecidableEq, Repr

/-- Connected mode: not in demo mode and the Supabase client exists.  This
is the guard `!isDemoMode && supabase` on every remote write in App.tsx. -/
def AppState.connected (s : AppState) : Bool :=
  !s.isDemoMode && s.supabaseConfigured

/-- addInventoryAlert (App.tsx lines 109-112): builds the alert with id
`alert-` ++ Date.now() and timestamp Date.now(), and prepends it. -/
def addInventoryAlert (s : AppState) (alert : AlertInput) (now : Nat) : AppState :=
  let newAlert : InventoryAlert :=
    { partNumber := alert.partNumber
      message := alert.message
      roId := alert.roId
      reason := alert.reason
      id := "alert-" ++ toString now
      timestamp := now }
  { s with inventoryAlerts := newAlert :: s.inventoryAlerts }

/-- updateRO (App.tsx lines 86-91): map over the orders replacing every
record whose id matches, then, when connected, push the snake-cased full
record keyed by id. -/
def updateRO (s : AppState) (updatedRO : RepairOrder) (remoteOk : Bool) : AppState :=
  let s1 := { s with repairOrders :=
      s.repairOrders.map fun ro => if ro.id == updatedRO.id then updatedRO else ro }
  if s.connected then
    { s1 with remoteCalls := s1.remoteCalls ++
        [.update "repair_orders" (toSnakeRO updatedRO) "id" updatedRO.id remoteOk] }
  else s1

/-- updateInventory (App.tsx lines 93-107): find the part; silently return
if absent; otherwise compute the new quantity once, write it into the
collection, raise an alert when the new quantity is at or below the reorder
point, and, when connected, push only `quantity_on_hand` keyed by
`part_number`. -/
def updateInventory (s : AppState) (partNumber : String) (quantityChange : Int)
    (reason : String) (roId : String) (now : Nat) (remoteOk : Bool) : AppState :=
  match s.masterInventory.find? (fun p => p.partNumber == partNumber) with
  | none => s
  | some partToUpdate =>
    let newQuantity := partToUpdate.quantityOnHand + quantityChange
    let s1 := { s with masterInventory :=
        s.masterInventory.map fun part =>
          if part.partNumber == partNumber then
            { part with quantityOnHand := newQuantity }
          else part }
    let s2 :=
      if newQuantity ≤ partToUpdate.reorderPoint then
        addInventoryAlert s1
          { partNumber := partNumber
            message := "Low stock: " ++ partToUpdate.description
            roId := roId
            reason := reason } now
      else s1
    if s.connected then
      { s2 with remoteCalls := s2.remoteCalls ++
          [.update "master_inventory" [("quantity_on_hand", .int newQuantity)]
            "part_number" partNumber remoteOk] }
    else s2

/-- addRO (App.tsx lines 114-119): append locally, then, when connected,
insert the snake-cased record remotely. -/
def addRO (s : AppState) (newRO : RepairOrder) (remoteOk : Bool) : AppState :=
  let s1 := { s with repairOrders := s.repairOrders ++ [newRO] }
  if s.connected then
    { s1 with remoteCalls := s1.remoteCalls ++
        [.insert "repair_orders" (toSnakeRO newRO) remoteOk] }
  else s1

/-- Result of one remote bulk read, at the adapter boundary (rows already
translated back to camelCase by `toCamel`). -/
inductive RemoteResult (α : Type) where
  | ok : α → RemoteResult α
  | err : (message : String) → RemoteResult α

/-- fetchInitialData (App.tsx lines 38-62): clear the error; if the client
is unconfigured set the sentinel error and skip both reads; otherwise read
repair orders (on failure surface its message, falling back to the fixed
uplink message when the cause message is empty, i.e. falsy), store them,
then read inventory likewise.  The demo-mode flag is never touched. -/
def fetchInitialData (s : AppState) (roResp : RemoteResult (List RepairOrder))
    (invResp : RemoteResult (List Part)) : AppState :=
  let s0 := { s with error := none }
  if !s.supabaseConfigured then
    { s0 with error := some "SUPABASE_UNCONFIGURED" }
  else
    let s1 := { s0 with remoteCalls := s0.remoteCalls ++ [RemoteCall.select "repair_orders"] }
    match roResp with
    | .err m =>
      { s1 with error := some (if m = "" then "Uplink to Command Database failed." else m) }
    | .ok ros =>
      let s2 := { s1 with repairOrders := ros,
                          remoteCalls := s1.remoteCalls ++ [RemoteCall.select "master_inventory"] }
      match invResp with
      | .err m =>
        { s2 with error := some (if m = "" then "Uplink to Command Database failed." else m) }
      | .ok parts => { s2 with masterInventory := parts }

/-- The UI branch at App.tsx line 180: the dedicated unconfigured screen
(Retry Handshake / Launch Simulation Mode) renders exactly when the error
is the sentinel string. -/
def rendersUnconfiguredScreen (s : AppState) : Bool :=
  s.error == some "SUPABASE_UNCONFIGURED"

/-- The `Launch Simulation Mode` button handler (App.tsx line 193):
`setIsDemoMode(true)`. -/
def launchSimulationMode (s : AppState) : AppState :=
  { s with isDemoMode := true }

/-- The locally observable portion of the state: everything except the
remote-call log. -/
def AppState.localView (s : AppState) :
    List RepairOrder × List Part × List InventoryAlert × Option String × Bool :=
  (s.repairOrders, s.masterInventory, s.inventoryAlerts, s.error, s.isDemoMode)

/-! ### Helper lemmas -/

/-- The alert record raised by `updateInventory` for part `p`. -/
def lowStockAlert (p : Part) (roId reason : String) (now : Nat) : InventoryAlert :=
  { id := "alert-" ++ toString now
    partNumber := p.partNumber
    message := "Low stock: " ++ p.description
    roId := roId
    reason := reason
    timestamp := now }

/-- The map applied to the inventory by a successful `updateInventory`. -/
def setQuantity (partNumber : String) (newQuantity : Int) (part : Part) : Part :=
  if part.partNumber == partNumber then { part with quantityOnHand := newQuantity } else part

theorem updateInventory_found (s : AppState) (partNumber : String) (quantityChange : Int)
    (reason roId : String) (now : Nat) (remoteOk : Bool) (p : Part)
    (hfind : s.masterInventory.find? (fun q => q.partNumber == partNumber) = some p) :
    updateInventory s partNumber quantityChange reason roId now remoteOk =
      { s with
        masterInventory :=
          s.masterInventory.map (setQuantity partNumber (p.quantityOnHand + quantityChange))
        inventoryAlerts :=
          if p.quantityOnHand + quantityChange ≤ p.reorderPoint then
            { lowStockAlert p roId reason now with partNumber := partNumber } :: s.inventoryAlerts
          else s.inventoryAlerts
        remoteCalls :=
          if s.connected then
            s.remoteCalls ++
              [.update "master_inventory"
                [("quantity_on_hand", .int (p.quantityOnHand + quantityChange))]
                "part_number" partNumber remoteOk]
          else s.remoteCalls } := by
  simp only [updateInventory, hfind, addInventoryAlert, lowStockAlert, setQuantity]
  split <;> split <;> rfl

theorem updateInventory_not_found (s : AppState) (partNumber : String) (quantityChange : Int)
    (reason roId : String) (now : Nat) (remoteOk : Bool)
    (hfind : s.masterInventory.find? (fun q => q.partNumber == partNumber) = none) :
    updateInventory s partNumber quantityChange reason roId now remoteOk = s := by
  simp only [updateInventory, hfind]

theorem setQuantity_partNumber (partNumber : String) (q : Int) (part : Part) :
    (setQuantity partNumber q part).partNumber = part.partNumber := by
  unfold setQuantity
  split <;> rfl

theorem find?_map_setQuantity (l : List Part) (partNumber : String) (q : Int) (p : Part)
    (hfind : l.find? (fun x => x.partNumber == partNumber) = some p) :
    (l.map (setQuantity partNumber q)).find? (fun x => x.partNumber == partNumber) =
      some { p with quantityOnHand := q } := by
  rw [List.find?_map]
  have hpred : ((fun x : Part => x.partNumber == partNumber) ∘ setQuantity partNumber q) =
      fun x : Part => x.partNumber == partNumber := by
    funext x
    simp [Function.comp, setQuantity_partNumber]
  rw [hpred, hfind]
  have hp : (p.partNumber == partNumber) = true :=
    @List.find?_some Part (fun x => x.partNumber == partNumber) p l hfind
  simp [setQuantity, Option.map, hp]

/-- The map applied to the order collection by `updateRO`. -/
def replaceById (r : RepairOrder) (ro : RepairOrder) : RepairOrder :=
  if ro.id == r.id then r else ro

theorem updateRO_repairOrders (s : AppState) (r : RepairOrder) (ok : Bool) :
    (updateRO s r ok).repairOrders = s.repairOrders.map (replaceById r) := by
  unfold updateRO replaceById
  split <;> rfl

theorem updateRO_remoteCalls (s : AppState) (r : RepairOrder) (ok : Bool) :
    (updateRO s r ok).remoteCalls =
      if s.connected then
        s.remoteCalls ++ [.update "repair_orders" (toSnakeRO r) "id" r.id ok]
      else s.remoteCalls := by
  unfold updateRO
  split <;> rfl

theorem updateRO_localView (s : AppState) (r : RepairOrder) (ok : Bool) :
    AppState.localView (updateRO s r ok) =
      (s.repairOrders.map (replaceById r), s.masterInventory, s.inventoryAlerts,
        s.error, s.isDemoMode) := by
  unfold updateRO AppState.localView replaceById
  split <;> rfl

theorem addRO_repairOrders (s : AppState) (r : RepairOrder) (ok : Bool) :
    (addRO s r ok).repairOrders = s.repairOrders ++ [r] := by
  unfold addRO
  split <;> rfl

theorem addRO_remoteCalls (s : AppState) (r : RepairOrder) (ok : Bool) :
    (addRO s r ok).remoteCalls =
      if s.connected then
        s.remoteCalls ++ [.insert "repair_orders" (toSnakeRO r) ok]
      else s.remoteCalls := by
  unfold addRO
  split <;> rfl

theorem addRO_localView (s : AppState) (r : RepairOrder) (ok : Bool) :
    AppState.localView (addRO s r ok) =
      (s.repairOrders ++ [r], s.masterInventory, s.inventoryAlerts, s.error, s.isDemoMode) := by
  unfold addRO AppState.localView
  split <;> rfl

theorem updateInventory_localView (s : AppState) (partNumber : String) (d : Int)
    (reason roId : String) (now : Nat) (ok : Bool) (p : Part)
    (hfind : s.masterInventory.find? (fun q => q.partNumber == partNumber) = some p) :
    AppState.localView (updateInventory s partNumber d reason roId now ok) =
      (s.repairOrders,
        s.masterInventory.map (setQuantity partNumber (p.quantityOnHand + d)),
        if p.quantityOnHand + d ≤ p.reorderPoint then
          { lowStockAlert p roId reason now with partNumber := partNumber } :: s.inventoryAlerts
        else s.inventoryAlerts,
        s.error, s.isDemoMode) := by
  rw [updateInventory_found s partNumber d reason roId now ok p hfind]
  rfl

theorem connected_true (s : AppState) (h1 : s.isDemoMode = false)
    (h2 : s.supabaseConfigured = true) : s.connected = true := by
  simp [AppState.connected, h1, h2]

theorem connected_false_of_demo (s : AppState) (h : s.isDemoMode = true) :
    s.connected = false := by
  simp [AppState.connected, h]

/-! ### Concrete fixtures (spec section 8 scenarios) -/

/-- Scenario part: `ENG-001`, quantity 5, reorder point 5. -/
def engPart : Part :=
  { partNumber := "ENG-001", description := "Engine gasket", quantityOnHand := 5, reorderPoint := 5 }

/-- Scenario part with quantity 10. -/
def engPart10 : Part := { engPart with quantityOnHand := 10 }

/-- A sample order. -/
def ro1 : RepairOrder :=
  { id := "RO-1", status := .NEW, technicianId := none, lineItems := ["gasket"] }

/-- A simulated-mode session holding the scenario part. -/
def demoState : AppState :=
  { repairOrders := [ro1], masterInventory := [engPart], inventoryAlerts := []
    error := none, isDemoMode := true, supabaseConfigured := false, remoteCalls := [] }

/-- A connected-mode session holding the scenario part. -/
def connState : AppState :=
  { repairOrders := [ro1], masterInventory := [engPart], inventoryAlerts := []
    error := none, isDemoMode := false, supabaseConfigured := true, remoteCalls := [] }

/-! ### Claims -/

/-- C1: for every part present in the inventory and every integer delta,
`updateInventory` sets the part's quantityOnHand to its previous
quantityOnHand plus the delta, with no clamping, including deltas that
drive the quantity negative (the delta and quantities range over all of
`Int`). -/
theorem updateInventory_adds_delta (s : AppState) (partNumber : String) (d : Int)
    (reason roId : String) (now : Nat) (ok : Bool) (p : Part)
    (hfind : s.masterInventory.find? (fun q => q.partNumber == partNumber) = some p) :
    (updateInventory s partNumber d reason roId now ok).masterInventory.find?
        (fun q => q.partNumber == partNumber) =
      some { p with quantityOnHand := p.quantityOnHand + d } := by
  rw [updateInventory_found s partNumber d reason roId now ok p hfind]
  exact find?_map_setQuantity s.masterInventory partNumber (p.quantityOnHand + d) p hfind

/-- Witness for C1 at spec scenario 1 (5 + (-1) = 4) and at a delta that
drives the quantity negative (5 + (-7) = -2). -/
theorem updateInventory_adds_delta_witness :
    (updateInventory demoState "ENG-001" (-1) "install" "RO-10" 111 true).masterInventory.find?
        (fun q => q.partNumber == "ENG-001") =
      some { partNumber := "ENG-001", description := "Engine gasket"
             quantityOnHand := 4, reorderPoint := 5 } ∧
    (updateInventory demoState "ENG-001" (-7) "install" "RO-10" 111 true).masterInventory.find?
        (fun q => q.partNumber == "ENG-001") =
      some { partNumber := "ENG-001", description := "Engine gasket"
             quantityOnHand := -2, reorderPoint := 5 } :=
  ⟨(updateInventory_adds_delta demoState "ENG-001" (-1) "install" "RO-10" 111 true engPart
      (by decide)).trans (by decide),
   (updateInventory_adds_delta demoState "ENG-001" (-7) "install" "RO-10" 111 true engPart
      (by decide)).trans (by decide)⟩

/-- C2: `updateInventory` on a present part raises an inventory alert if
and only if the post-mutation quantity is at or below the part's reorder
point; the decision is taken on the post-mutation quantity
`p.quantityOnHand + d`, never the pre-mutation one. -/
theorem alert_iff_post_quantity (s : AppState) (partNumber : String) (d : Int)
    (reason roId : String) (now : Nat) (ok : Bool) (p : Part)
    (hfind : s.masterInventory.find? (fun q => q.partNumber == partNumber) = some p) :
    ((updateInventory s partNumber d reason roId now ok).inventoryAlerts.length
        = s.inventoryAlerts.length + 1 ↔ p.quantityOnHand + d ≤ p.reorderPoint) ∧
    (p.quantityOnHand + d ≤ p.reorderPoint →
      (updateInventory s partNumber d reason roId now ok).inventoryAlerts =
        { lowStockAlert p roId reason now with partNumber := partNumber } :: s.inventoryAlerts) ∧
    (p.reorderPoint < p.quantityOnHand + d →
      (updateInventory s partNumber d reason roId now ok).inventoryAlerts =
        s.inventoryAlerts) := by
  rw [updateInventory_found s partNumber d reason roId now ok p hfind]
  refine ⟨?_, ?_, ?_⟩
  · by_cases hc : p.quantityOnHand + d ≤ p.reorderPoint <;> simp [hc]
  · intro hc
    simp [hc]
  · intro hc
    simp [not_le.mpr hc]

/-- Witness for C2 at spec scenarios 1 (4 ≤ 5: alert) and 2 (8 > 5: no
alert), instantiating both directions of the threshold. -/
theorem alert_iff_post_quantity_witness :
    ((updateInventory demoState "ENG-001" (-1) "install" "RO-10" 111 true).inventoryAlerts.length
        = demoState.inventoryAlerts.length + 1 ↔ (5 : Int) + (-1) ≤ 5) ∧
    ((updateInventory { demoState with masterInventory := [engPart10] }
        "ENG-001" (-2) "install" "RO-10" 111 true).inventoryAlerts.length
        = demoState.inventoryAlerts.length + 1 ↔ (10 : Int) + (-2) ≤ 5) :=
  ⟨(alert_iff_post_quantity demoState "ENG-001" (-1) "install" "RO-10" 111 true engPart
      (by decide)).1,
   (alert_iff_post_quantity { demoState with masterInventory := [engPart10] }
      "ENG-001" (-2) "install" "RO-10" 111 true engPart10 (by decide)).1⟩

/-- C3: `updateInventory` on a partNumber absent from the inventory
snapshot returns the state unchanged: no inventory mutation, no alert, no
remote call — the PartNotFound condition of the spec's error taxonomy,
which the source signals only by silently returning. -/
theorem unknown_part_noop (s : AppState) (partNumber : String) (d : Int)
    (reason roId : String) (now : Nat) (ok : Bool)
    (hfind : s.masterInventory.find? (fun q => q.partNumber == partNumber) = none) :
    updateInventory s partNumber d reason roId now ok = s :=
  updateInventory_not_found s partNumber d reason roId now ok hfind

/-- Witness for C3 at spec scenario 3: an unknown part number leaves the
session state untouched. -/
theorem unknown_part_noop_witness :
    updateInventory demoState "UNKNOWN-PART" (-1) "install" "RO-10" 111 true = demoState :=
  unknown_part_noop demoState "UNKNOWN-PART" (-1) "install" "RO-10" 111 true (by decide)

/-- C10: frame property of `updateInventory` on a present part: the order
collection, error and mode are untouched; every part keeps its partNumber,
description and reorderPoint (positionally); and every part whose
partNumber differs from the target is wholly unchanged. -/
theorem updateInventory_frame (s : AppState) (partNumber : String) (d : Int)
    (reason roId : String) (now : Nat) (ok : Bool) (p : Part)
    (hfind : s.masterInventory.find? (fun q => q.partNumber == partNumber) = some p) :
    (updateInventory s partNumber d reason roId now ok).repairOrders = s.repairOrders ∧
    (updateInventory s partNumber d reason roId now ok).error = s.error ∧
    (updateInventory s partNumber d reason roId now ok).isDemoMode = s.isDemoMode ∧
    (updateInventory s partNumber d reason roId now ok).masterInventory.map
        (fun q => (q.partNumber, q.description, q.reorderPoint))
      = s.masterInventory.map (fun q => (q.partNumber, q.description, q.reorderPoint)) ∧
    (updateInventory s partNumber d reason roId now ok).masterInventory.filter
        (fun q => !(q.partNumber == partNumber))
      = s.masterInventory.filter (fun q => !(q.partNumber == partNumber)) := by
  rw [updateInventory_found s partNumber d reason roId now ok p hfind]
  refine ⟨rfl, rfl, rfl, ?_, ?_⟩
  · show (s.masterInventory.map (setQuantity partNumber (p.quantityOnHand + d))).map
        (fun q => (q.partNumber, q.description, q.reorderPoint))
      = s.masterInventory.map (fun q => (q.partNumber, q.description, q.reorderPoint))
    rw [List.map_map]
    apply List.map_congr_left
    intro a _
    simp only [Function.comp_apply, setQuantity]
    split <;> rfl
  · show (s.masterInventory.map (setQuantity partNumber (p.quantityOnHand + d))).filter
        (fun q => !(q.partNumber == partNumber))
      = s.masterInventory.filter (fun q => !(q.partNumber == partNumber))
    rw [List.filter_map]
    have hpred : ((fun q : Part => !(q.partNumber == partNumber)) ∘
        setQuantity partNumber (p.quantityOnHand + d)) =
        fun q : Part => !(q.partNumber == partNumber) := by
      funext x
      simp [Function.comp, setQuantity_partNumber]
    rw [hpred]
    have hid : ∀ a ∈ s.masterInventory.filter (fun q : Part => !(q.partNumber == partNumber)),
        setQuantity partNumber (p.quantityOnHand + d) a = a := by
      intro a ha
      have hmem := List.mem_filter.mp ha
      have hne : (a.partNumber == partNumber) = false := by
        cases h : a.partNumber == partNumber
        · rfl
        · rw [h] at hmem
          simp at hmem
      unfold setQuantity
      rw [hne]
      simp
    calc (s.masterInventory.filter (fun q : Part => !(q.partNumber == partNumber))).map
          (setQuantity partNumber (p.quantityOnHand + d))
        = (s.masterInventory.filter (fun q : Part => !(q.partNumber == partNumber))).map id := by
          apply List.map_congr_left
          intro a ha
          exact hid a ha
      _ = s.masterInventory.filter (fun q : Part => !(q.partNumber == partNumber)) :=
          List.map_id _

/-- Witness for C10 at spec scenario 1. -/
theorem updateInventory_frame_witness :
    (updateInventory demoState "ENG-001" (-1) "install" "RO-10" 111 true).repairOrders
        = demoState.repairOrders ∧
    (updateInventory demoState "ENG-001" (-1) "install" "RO-10" 111 true).error
        = demoState.error ∧
    (updateInventory demoState "ENG-001" (-1) "install" "RO-10" 111 true).isDemoMode
        = demoState.isDemoMode ∧
    (updateInventory demoState "ENG-001" (-1) "install" "RO-10" 111 true).masterInventory.map
        (fun q => (q.partNumber, q.description, q.reorderPoint))
      = demoState.masterInventory.map (fun q => (q.partNumber, q.description, q.reorderPoint)) ∧
    (updateInventory demoState "ENG-001" (-1) "install" "RO-10" 111 true).masterInventory.filter
        (fun q => !(q.partNumber == "ENG-001"))
      = demoState.masterInventory.filter (fun q => !(q.partNumber == "ENG-001")) :=
  updateInventory_frame demoState "ENG-001" (-1) "install" "RO-10" 111 true engPart (by decide)

/-- The fully replaced order used in the C4 witness: same id as `ro1`,
advanced status, no field carried over. -/
def ro1Auth : RepairOrder :=
  { id := "RO-1", status := .AUTHORIZED, technicianId := some "T1", lineItems := [] }

/-- An order whose id matches nothing in `connState`. -/
def roMissing : RepairOrder :=
  { id := "RO-99", status := .NEW, technicianId := none, lineItems := [] }

/-- C4: `updateRO` keeps the collection length (never inserts), leaves
every record with a different id unchanged, replaces every record sharing
the new record's id wholesale by the new record (no field of the old
record survives), and is a no-op when no record has that id. -/
theorem updateRO_replace_semantics (s : AppState) (r : RepairOrder) (ok : Bool) :
    (updateRO s r ok).repairOrders.length = s.repairOrders.length ∧
    (updateRO s r ok).repairOrders.filter (fun ro => !(ro.id == r.id))
      = s.repairOrders.filter (fun ro => !(ro.id == r.id)) ∧
    (updateRO s r ok).repairOrders.filter (fun ro => ro.id == r.id)
      = (s.repairOrders.filter (fun ro => ro.id == r.id)).map (fun _ => r) ∧
    ((∀ ro ∈ s.repairOrders, ro.id ≠ r.id) →
      (updateRO s r ok).repairOrders = s.repairOrders) := by
  rw [updateRO_repairOrders s r ok]
  have hkeep : ∀ ro : RepairOrder, ((replaceById r ro).id == r.id) = (ro.id == r.id) := by
    intro ro
    unfold replaceById
    by_cases h : (ro.id == r.id) = true
    · rw [if_pos h, h]
      exact beq_self_eq_true r.id
    · rw [if_neg h]
  refine ⟨List.length_map _ _, ?_, ?_, ?_⟩
  · rw [List.filter_map]
    have hpred : ((fun ro : RepairOrder => !(ro.id == r.id)) ∘ replaceById r) =
        fun ro : RepairOrder => !(ro.id == r.id) := by
      funext ro
      simp only [Function.comp_apply, hkeep]
    rw [hpred]
    calc (s.repairOrders.filter (fun ro : RepairOrder => !(ro.id == r.id))).map (replaceById r)
        = (s.repairOrders.filter (fun ro : RepairOrder => !(ro.id == r.id))).map id := by
          apply List.map_congr_left
          intro a ha
          have hmem := List.mem_filter.mp ha
          have hne : (a.id == r.id) = false := by
            cases h : a.id == r.id
            · rfl
            · rw [h] at hmem
              simp at hmem
          unfold replaceById
          rw [hne]
          rfl
      _ = s.repairOrders.filter (fun ro : RepairOrder => !(ro.id == r.id)) := List.map_id _
  · rw [List.filter_map]
    have hpred : ((fun ro : RepairOrder => ro.id == r.id) ∘ replaceById r) =
        fun ro : RepairOrder => ro.id == r.id := by
      funext ro
      simp only [Function.comp_apply, hkeep]
    rw [hpred]
    apply List.map_congr_left
    intro a ha
    have hmem := List.mem_filter.mp ha
    unfold replaceById
    rw [if_pos hmem.2]
  · intro hnone
    calc s.repairOrders.map (replaceById r)
        = s.repairOrders.map id := by
          apply List.map_congr_left
          intro a ha
          have hne : (a.id == r.id) = false := beq_eq_false_iff_ne.mpr (hnone a ha)
          unfold replaceById
          rw [hne]
          rfl
      _ = s.repairOrders := List.map_id _

/-- Witness for C4 at spec scenario 4: replacing `RO-1` swaps in the full
new record, and updating a non-existent id leaves the collection alone. -/
theorem updateRO_replace_semantics_witness :
    (updateRO connState ro1Auth true).repairOrders.filter (fun ro => ro.id == ro1Auth.id)
      = (connState.repairOrders.filter (fun ro => ro.id == ro1Auth.id)).map (fun _ => ro1Auth) ∧
    (updateRO connState roMissing true).repairOrders = connState.repairOrders :=
  ⟨(updateRO_replace_semantics connState ro1Auth true).2.2.1,
   (updateRO_replace_semantics connState roMissing true).2.2.2 (by decide)⟩

/-- C5: mode isolation.  In simulated mode (`isDemoMode = true`) no
mutation appends anything to the remote-call log; in connected mode
(`isDemoMode = false` with a configured client) each mutation appends
exactly one call of the corresponding kind — insert of the snake-cased
full record for addRO, update of the snake-cased full record keyed by
`id` for updateRO, and update of `quantity_on_hand` keyed by
`part_number` for updateInventory. -/
theorem mode_isolation (s t : AppState) (r : RepairOrder) (partNumber : String)
    (d : Int) (reason roId : String) (now : Nat) (ok : Bool) (p : Part)
    (hs : s.isDemoMode = true)
    (ht1 : t.isDemoMode = false) (ht2 : t.supabaseConfigured = true)
    (htp : t.masterInventory.find? (fun q => q.partNumber == partNumber) = some p) :
    (addRO s r ok).remoteCalls = s.remoteCalls ∧
    (updateRO s r ok).remoteCalls = s.remoteCalls ∧
    (updateInventory s partNumber d reason roId now ok).remoteCalls = s.remoteCalls ∧
    (addRO t r ok).remoteCalls =
      t.remoteCalls ++ [RemoteCall.insert "repair_orders" (toSnakeRO r) ok] ∧
    (updateRO t r ok).remoteCalls =
      t.remoteCalls ++ [RemoteCall.update "repair_orders" (toSnakeRO r) "id" r.id ok] ∧
    (updateInventory t partNumber d reason roId now ok).remoteCalls =
      t.remoteCalls ++ [RemoteCall.update "master_inventory"
        [("quantity_on_hand", WireVal.int (p.quantityOnHand + d))] "part_number" partNumber ok] := by
  have hsc : s.connected = false := connected_false_of_demo s hs
  have htc : t.connected = true := connected_true t ht1 ht2
  refine ⟨?_, ?_, ?_, ?_, ?_, ?_⟩
  · rw [addRO_remoteCalls, hsc]
    rfl
  · rw [updateRO_remoteCalls, hsc]
    rfl
  · cases hf : s.masterInventory.find? (fun q => q.partNumber == partNumber) with
    | none => rw [updateInventory_not_found s partNumber d reason roId now ok hf]
    | some q =>
      rw [updateInventory_found s partNumber d reason roId now ok q hf]
      simp [hsc]
  · rw [addRO_remoteCalls, htc]
    rfl
  · rw [updateRO_remoteCalls, htc]
    rfl
  · rw [updateInventory_found t partNumber d reason roId now ok p htp]
    simp [htc]

/-- Witness for C5: in the simulated session no call is logged for an
order insert; in the connected session the inventory consumption logs
exactly the translated partial update. -/
theorem mode_isolation_witness :
    (addRO demoState ro1Auth true).remoteCalls = demoState.remoteCalls ∧
    (updateInventory connState "ENG-001" (-1) "install" "RO-10" 111 true).remoteCalls =
      connState.remoteCalls ++ [RemoteCall.update "master_inventory"
        [("quantity_on_hand", WireVal.int (engPart.quantityOnHand + (-1)))]
        "part_number" "ENG-001" true] :=
  ⟨(mode_isolation demoState connState ro1Auth "ENG-001" (-1) "install" "RO-10" 111 true engPart
      rfl rfl rfl (by decide)).1,
   (mode_isolation demoState connState ro1Auth "ENG-001" (-1) "install" "RO-10" 111 true engPart
      rfl rfl rfl (by decide)).2.2.2.2.2⟩

/-- C6: optimistic update without rollback, in connected mode.  The local
mutation (and the alert derivation) is a function of the pre-state alone:
it is applied identically whatever the remote outcome, so a failed remote
write (outcome `false`) leaves exactly the local state a successful one
leaves, and no second (retry) call is appended — exactly one call is
logged, carrying the post-mutation data. -/
theorem optimistic_no_rollback (s : AppState) (r : RepairOrder) (partNumber : String)
    (d : Int) (reason roId : String) (now : Nat) (ok : Bool) (p : Part)
    (h1 : s.isDemoMode = false) (h2 : s.supabaseConfigured = true)
    (hfind : s.masterInventory.find? (fun q => q.partNumber == partNumber) = some p) :
    (addRO s r ok).repairOrders = s.repairOrders ++ [r] ∧
    (updateRO s r ok).repairOrders = s.repairOrders.map (replaceById r) ∧
    (updateInventory s partNumber d reason roId now ok).masterInventory =
      s.masterInventory.map (setQuantity partNumber (p.quantityOnHand + d)) ∧
    AppState.localView (addRO s r false) = AppState.localView (addRO s r true) ∧
    AppState.localView (updateRO s r false) = AppState.localView (updateRO s r true) ∧
    AppState.localView (updateInventory s partNumber d reason roId now false)
      = AppState.localView (updateInventory s partNumber d reason roId now true) ∧
    (addRO s r ok).remoteCalls =
      s.remoteCalls ++ [RemoteCall.insert "repair_orders" (toSnakeRO r) ok] ∧
    (updateRO s r ok).remoteCalls =
      s.remoteCalls ++ [RemoteCall.update "repair_orders" (toSnakeRO r) "id" r.id ok] ∧
    (updateInventory s partNumber d reason roId now ok).remoteCalls =
      s.remoteCalls ++ [RemoteCall.update "master_inventory"
        [("quantity_on_hand", WireVal.int (p.quantityOnHand + d))]
        "part_number" partNumber ok] := by
  have hc : s.connected = true := connected_true s h1 h2
  refine ⟨addRO_repairOrders s r ok, updateRO_repairOrders s r ok, ?_, ?_, ?_, ?_, ?_, ?_, ?_⟩
  · rw [updateInventory_found s partNumber d reason roId now ok p hfind]
  · rw [addRO_localView, addRO_localView]
  · rw [updateRO_localView, updateRO_localView]
  · rw [updateInventory_localView s partNumber d reason roId now false p hfind,
      updateInventory_localView s partNumber d reason roId now true p hfind]
  · rw [addRO_remoteCalls, hc]
    rfl
  · rw [updateRO_remoteCalls, hc]
    rfl
  · rw [updateInventory_found s partNumber d reason roId now ok p hfind]
    simp [hc]

/-- Witness for C6: in the connected session, the local inventory change
and the alert survive a failed remote write exactly as they do a
successful one, and one call is logged. -/
theorem optimistic_no_rollback_witness :
    AppState.localView (updateInventory connState "ENG-001" (-1) "install" "RO-10" 111 false)
      = AppState.localView (updateInventory connState "ENG-001" (-1) "install" "RO-10" 111 true) ∧
    (addRO connState ro1Auth false).repairOrders = connState.repairOrders ++ [ro1Auth] :=
  ⟨(optimistic_no_rollback connState ro1Auth "ENG-001" (-1) "install" "RO-10" 111 false engPart
      rfl rfl (by decide)).2.2.2.2.2.1,
   (optimistic_no_rollback connState ro1Auth "ENG-001" (-1) "install" "RO-10" 111 false engPart
      rfl rfl (by decide)).1⟩

/-- C7: bootstrap error distinguishability.  With the client unconfigured,
the error is the fixed sentinel the dedicated screen tests for, no bulk
read is issued, collections and mode are untouched, and the explicit
simulation-mode switch is what flips the mode; with the client configured,
a failed bulk read surfaces its own cause message, does not change the
mode, and (whenever the cause message differs from the sentinel) does not
render the unconfigured screen. -/
theorem bootstrap_error_distinguishable (s t : AppState)
    (roResp : RemoteResult (List RepairOrder)) (invResp : RemoteResult (List Part))
    (m : String) (hs : s.supabaseConfigured = false)
    (ht : t.supabaseConfigured = true) (hm : m ≠ "") :
    (fetchInitialData s roResp invResp).error = some "SUPABASE_UNCONFIGURED" ∧
    rendersUnconfiguredScreen (fetchInitialData s roResp invResp) = true ∧
    (fetchInitialData s roResp invResp).remoteCalls = s.remoteCalls ∧
    (fetchInitialData s roResp invResp).isDemoMode = s.isDemoMode ∧
    (fetchInitialData s roResp invResp).repairOrders = s.repairOrders ∧
    (fetchInitialData s roResp invResp).masterInventory = s.masterInventory ∧
    (launchSimulationMode (fetchInitialData s roResp invResp)).isDemoMode = true ∧
    (fetchInitialData t (.err m) invResp).error = some m ∧
    (fetchInitialData t (.err m) invResp).isDemoMode = t.isDemoMode ∧
    (m ≠ "SUPABASE_UNCONFIGURED" →
      rendersUnconfiguredScreen (fetchInitialData t (.err m) invResp) = false) := by
  have hserr : fetchInitialData s roResp invResp = { s with error := some "SUPABASE_UNCONFIGURED" } := by
    unfold fetchInitialData
    rw [hs]
    rfl
  refine ⟨?_, ?_, ?_, ?_, ?_, ?_, ?_, ?_, ?_, ?_⟩
  · rw [hserr]
  · rw [hserr]
    rfl
  · rw [hserr]
  · rw [hserr]
  · rw [hserr]
  · rw [hserr]
  · rw [hserr]
    rfl
  · simp [fetchInitialData, ht, hm]
  · simp [fetchInitialData, ht, hm]
  · intro hne
    simp [fetchInitialData, rendersUnconfiguredScreen, ht, hm, hne]

/-- Witness for C7: an unconfigured session yields the sentinel and skips
the reads; a connected session whose bulk read fails with a timeout
surfaces the timeout message and does not render the unconfigured
screen. -/
theorem bootstrap_error_distinguishable_witness :
    (fetchInitialData demoState (RemoteResult.ok []) (RemoteResult.ok [])).error
      = some "SUPABASE_UNCONFIGURED" ∧
    (fetchInitialData demoState (RemoteResult.ok []) (RemoteResult.ok [])).remoteCalls
      = demoState.remoteCalls ∧
    (fetchInitialData connState (RemoteResult.err "Uplink timeout") (RemoteResult.ok [])).error
      = some "Uplink timeout" ∧
    rendersUnconfiguredScreen
      (fetchInitialData connState (RemoteResult.err "Uplink timeout") (RemoteResult.ok []))
      = false := by
  have h := bootstrap_error_distinguishable demoState connState
    (RemoteResult.ok []) (RemoteResult.ok []) "Uplink timeout" rfl rfl (by decide)
  exact ⟨h.1, h.2.2.1, h.2.2.2.2.2.2.2.1, h.2.2.2.2.2.2.2.2.2 (by decide)⟩

/-- An alert log already holding an alert raised at millisecond 5. -/
def alertState : AppState :=
  { demoState with inventoryAlerts :=
      [{ id := "alert-5", partNumber := "ENG-001", message := "Low stock: Engine gasket",
         roId := "RO-10", reason := "install", timestamp := 5 }] }

/-- The input of a second alert raised within the same millisecond. -/
def alertIn : AlertInput :=
  { partNumber := "ENG-001", message := "Low stock: Engine gasket",
    roId := "RO-11", reason := "install" }

/-- C8 counterexample: ids are `alert-` ++ Date.now(), so an alert raised
in the same millisecond as an existing one reuses its id — the log then
holds two alerts with equal ids, refuting the claimed per-log id
uniqueness. -/
theorem alert_id_not_unique_counterexample :
    ((addInventoryAlert alertState alertIn 5).inventoryAlerts.map (fun al => al.id))
      = ["alert-5", "alert-5"] ∧
    ¬ ((addInventoryAlert alertState alertIn 5).inventoryAlerts.map (fun al => al.id)).Nodup := by
  decide

/-- C8 amended: every raised alert is constructed with id `alert-<t>` and
timestamp `t`, `t` being the creation time — so ids are unique only across
distinct creation milliseconds, not per log — and is prepended to the
alert log, whose existing entries are never mutated or removed; nothing
else in the state changes. -/
theorem alert_construction_amended (s : AppState) (a : AlertInput) (now : Nat) :
    (addInventoryAlert s a now).inventoryAlerts =
      { id := "alert-" ++ toString now, partNumber := a.partNumber, message := a.message,
        roId := a.roId, reason := a.reason, timestamp := now } :: s.inventoryAlerts ∧
    (addInventoryAlert s a now).repairOrders = s.repairOrders ∧
    (addInventoryAlert s a now).masterInventory = s.masterInventory ∧
    (addInventoryAlert s a now).error = s.error ∧
    (addInventoryAlert s a now).isDemoMode = s.isDemoMode ∧
    (addInventoryAlert s a now).remoteCalls = s.remoteCalls :=
  ⟨rfl, rfl, rfl, rfl, rfl, rfl⟩

/-- C9: two qualifying consumptions of the same part (both leaving the
quantity at or below the reorder point) put two alerts in the log — the
log literally gains the two alert records, so its length grows by two and
no deduplication by part, order or reason occurs. -/
theorem alert_non_idempotent (s : AppState) (partNumber : String) (d : Int)
    (reason roId : String) (now now2 : Nat) (ok ok2 : Bool) (p : Part)
    (hfind : s.masterInventory.find? (fun q => q.partNumber == partNumber) = some p)
    (h1 : p.quantityOnHand + d ≤ p.reorderPoint)
    (h2 : p.quantityOnHand + d + d ≤ p.reorderPoint) :
    (updateInventory (updateInventory s partNumber d reason roId now ok)
        partNumber d reason roId now2 ok2).inventoryAlerts
      = { lowStockAlert p roId reason now2 with partNumber := partNumber } ::
        { lowStockAlert p roId reason now with partNumber := partNumber } ::
        s.inventoryAlerts ∧
    (updateInventory (updateInventory s partNumber d reason roId now ok)
        partNumber d reason roId now2 ok2).inventoryAlerts.length
      = s.inventoryAlerts.length + 2 := by
  rw [updateInventory_found s partNumber d reason roId now ok p hfind]
  have hfind2 : ({ s with
      masterInventory := s.masterInventory.map (setQuantity partNumber (p.quantityOnHand + d)),
      inventoryAlerts :=
        if p.quantityOnHand + d ≤ p.reorderPoint then
          { lowStockAlert p roId reason now with partNumber := partNumber } :: s.inventoryAlerts
        else s.inventoryAlerts,
      remoteCalls :=
        if s.connected then
          s.remoteCalls ++
            [.update "master_inventory"
              [("quantity_on_hand", .int (p.quantityOnHand + d))]
              "part_number" partNumber ok]
        else s.remoteCalls } : AppState).masterInventory.find?
        (fun q => q.partNumber == partNumber)
      = some { p with quantityOnHand := p.quantityOnHand + d } :=
    find?_map_setQuantity s.masterInventory partNumber (p.quantityOnHand + d) p hfind
  rw [updateInventory_found _ partNumber d reason roId now2 ok2
    { p with quantityOnHand := p.quantityOnHand + d } hfind2]
  rw [if_pos h1]
  rw [if_pos h2]
  refine ⟨rfl, ?_⟩
  simp only [List.length_cons]

/-- Witness for C9 at spec scenario 1 repeated: consuming `ENG-001` twice
from quantity 5 with reorder point 5 leaves two alerts in the log. -/
theorem alert_non_idempotent_witness :
    (updateInventory (updateInventory demoState "ENG-001" (-1) "install" "RO-10" 111 true)
        "ENG-001" (-1) "install" "RO-10" 222 true).inventoryAlerts.length
      = demoState.inventoryAlerts.length + 2 :=
  (alert_non_idempotent demoState "ENG-001" (-1) "install" "RO-10" 111 222 true true engPart
    (by decide) (by decide) (by decide)).2

end JACK
